import Mathlib

/-!
Verification of `nala/features/tmvar.py`: the `TmVarFeatureGenerator` and
`TmVarDictionaryFeatureGenerator` classes.

Strings are embedded as Lean `String` / `List Char`.  Python regular
expressions are embedded by translating each concrete pattern of the source
into an explicit matching function with the same semantics (anchored
`re.match`, unanchored `re.search`, `re.finditer` scanning); `$` is modelled
with Python's semantics: it matches at the end of the string or just before
one trailing newline.  Character classes are modelled over their ASCII
ranges (as written in the source patterns).  Python's `str.find` is embedded
including its `-1` failure value and its treatment of negative start
positions.
-/

set_option autoImplicit false

namespace TmVar

/-- Feature values stored in `token.features`: Python `None`, a string, or an
integer count (the `num_*` features store ints below their cap). -/
inductive FVal where
  | non : FVal
  | str (s : String) : FVal
  | num (n : Nat) : FVal
  deriving DecidableEq, Repr

/-- Coerce the `Option String` result of a feature function into an `FVal`
(`None` stays the null value). -/
def ofOpt : Option String → FVal
  | none => FVal.non
  | some s => FVal.str s

/-- Characters of the regex class `[A-Z]`. -/
def isUpperAZ (c : Char) : Bool := 'A' ≤ c && c ≤ 'Z'

/-- Characters of the regex class `[a-z]`. -/
def isLowerAZ (c : Char) : Bool := 'a' ≤ c && c ≤ 'z'

/-- Characters of the regex class `[0-9]`. -/
def isDigit09 (c : Char) : Bool := '0' ≤ c && c ≤ '9'

/-- `re.search('[...]', s)`: some character of `s` belongs to the class. -/
def searchCls (cls : List Char) (s : List Char) : Bool :=
  s.any (fun c => cls.contains c)

/-- `re.match('[...]', s)`: the first character of `s` belongs to the class. -/
def matchCls (cls : List Char) : List Char → Bool
  | [] => false
  | c :: _ => cls.contains c

/-- `re.match('lit$', s)` for a literal alternative `lit`: after consuming
the literal from the start of `s`, `$` must hold, i.e. the rest of `s` is
empty or a single newline. -/
def litDollar : List Char → List Char → Bool
  | [], rest => rest == [] || rest == ['\n']
  | _ :: _, [] => false
  | a :: as, c :: cs => a == c && litDollar as cs

/-- `re.match('(a1|a2|...)$', s)` for literal alternatives: some alternative,
anchored at the start, is followed by `$`.  (Python tries the alternatives
in order; for a boolean result only existence matters.) -/
def anyLitDollar (alts : List (List Char)) (s : List Char) : Bool :=
  alts.any (fun a => litDollar a s)

/-- `re.match('[...]$', s)` for a character class: the first character of `s`
is in the class and `$` holds right after it. -/
def clsDollar (cls : List Char) : List Char → Bool
  | [] => false
  | c :: rest => cls.contains c && (rest == [] || rest == ['\n'])

/-- `re.match('lit[0-9]', s)` for a literal alternative `lit`: the literal,
anchored at the start, is followed by one digit. -/
def litThenDigit : List Char → List Char → Bool
  | [], [] => false
  | [], c :: _ => isDigit09 c
  | _ :: _, [] => false
  | a :: as, c :: cs => a == c && litThenDigit as cs

/-- `w` occurs in `s` as a contiguous substring (Python's `in` /
a successful unanchored `re.search` of a literal). -/
def isSubOf (w : List Char) : List Char → Bool
  | [] => w == []
  | c :: cs => w.isPrefixOf (c :: cs) || isSubOf w cs

/-- `re.search('(w1|w2|...)', s)` for literal alternatives: some alternative
occurs in `s` as a substring. -/
def anySub (ws : List (List Char)) (s : List Char) : Bool :=
  ws.any (fun w => isSubOf w s)

/-- `re.match('(w1|w2|...)', s)` (no anchor at the end) for literal
alternatives: some alternative is a prefix of `s`. -/
def anyPre (ws : List (List Char)) (s : List Char) : Bool :=
  ws.any (fun w => w.isPrefixOf s)

/-- Python `str.lower()` on the characters of a token (ASCII letters, as used
by the source's patterns). -/
def lowerData (s : String) : List Char := s.data.map Char.toLower

/-! ## `TmVarFeatureGenerator`: the per-token feature functions -/

/-- Characters of `reg_spec_chars = re.compile('[-;:,.>+_]')`. -/
def specChars : List Char := "-;:,.>+_".data

/-- `num_lower_chars`: count of lowercase characters, capped by `"L4+"`. -/
def num_lower_chars (s : String) : FVal :=
  let result := (s.data.filter Char.isLower).length
  if result > 4 then FVal.str "L4+" else FVal.num result

/-- `num_capital_chars`: count of uppercase characters, capped by `"U4+"`. -/
def num_capital_chars (s : String) : FVal :=
  let result := (s.data.filter Char.isUpper).length
  if result > 4 then FVal.str "U4+" else FVal.num result

/-- `num_digits_chars`: count of numeric characters (`str.isnumeric`,
modelled on digits), capped by `"N4+"`. -/
def num_digits_chars (s : String) : FVal :=
  let result := (s.data.filter Char.isDigit).length
  if result > 4 then FVal.str "N4+" else FVal.num result

/-- `num_chars`: count of alphabetic characters, capped by `"A4+"`. -/
def num_chars (s : String) : FVal :=
  let result := (s.data.filter Char.isAlpha).length
  if result > 4 then FVal.str "A4+" else FVal.num result

/-- `num_spec_chars`: five `re.search` character-class tests in source
order (`[-;:,.>+_]`, `[()]`, curly brackets, square brackets, `[/\]`). -/
def num_spec_chars (s : String) : Option String :=
  if searchCls specChars s.data then some "SpecC1"
  else if searchCls ['(', ')'] s.data then some "SpecC2"
  else if searchCls ['\x7b', '\x7d'] s.data then some "SpecC3"
  else if searchCls ['[', ']'] s.data then some "SpecC4"
  else if searchCls ['/', '\\'] s.data then some "SpecC5"
  else none

/-- `has_chromosomal_keytokens`:
`re.search('(q|p|q[0-9]+|p[0-9]+|qter|pter|XY|t)', s)`.  The alternatives
`q[0-9]+`, `p[0-9]+`, `qter`, `pter` all contain `q` or `p`, so the search
succeeds exactly when `s` contains `q`, `p`, `XY`, or `t`. -/
def has_chromosomal_keytokens (s : String) : Option String :=
  if s.data.contains 'q' || s.data.contains 'p'
      || isSubOf "XY".data s.data || s.data.contains 't'
  then some "ChroKey" else none

/-- `mutation_type`: on the lowercased token, `re.search('(fs|fsX|fsx)')`
first, then `re.search('(del|ins|dup|tri|qua|con|delins|indel)')`. -/
def mutation_type (s : String) : Option String :=
  let lc_tmp := lowerData s
  if anySub ["fs".data, "fsX".data, "fsx".data] lc_tmp then some "FrameShiftType"
  else if anySub ["del".data, "ins".data, "dup".data, "tri".data, "qua".data,
      "con".data, "delins".data, "indel".data] lc_tmp then some "MutatType"
  else none

/-- `mutation_word`: `re.match` (anchored at the start, no `$`) of the word
alternation against the lowercased token. -/
def mutation_word (s : String) : Option String :=
  let lc_tmp := lowerData s
  if anyPre ["deletion".data, "delta".data, "elta".data, "insertion".data,
      "repeat".data, "inversion".data, "deletions".data, "insertions".data,
      "repeats".data, "inversions".data] lc_tmp
  then some "MutatWord" else none

/-- `mutation_article_bp`: `re.match` of the article alternation (whose
numeric alternatives `[0-9]+` and `[0-9]+\.[0-9]+` are prefix-matchable
exactly when the first character is a digit), then `re.search('(kb|mb)')`,
then `re.search` of the base-pair word alternation, on the lowercased
token. -/
def mutation_article_bp (s : String) : Option String :=
  let lc_tmp := lowerData s
  if anyPre ["single".data, "a".data, "one".data, "two".data, "three".data,
      "four".data, "five".data, "six".data, "seven".data, "eight".data,
      "nine".data, "ten".data] lc_tmp || matchCls "0123456789".data lc_tmp
  then some "Base"
  else if anySub ["kb".data, "mb".data] lc_tmp then some "Byte"
  else if anySub ["base".data, "bases".data, "pair".data, "amino".data,
      "acid".data, "acids".data, "codon".data, "postion".data,
      "postions".data, "bp".data, "nucleotide".data, "nucleotides".data] lc_tmp
  then some "bp"
  else none

/-- `is_special_type_1`: `re.match('[cgrm]$', s)` gives `"Type1"`, else
`re.match('(ivs|ex|orf)$', s)` gives `"Type1_2"`, else `None`.  Both are
anchored at the start and end. -/
def is_special_type_1 (s : String) : Option String :=
  if anyLitDollar ["c".data, "g".data, "r".data, "m".data] s.data then some "Type1"
  else if anyLitDollar ["ivs".data, "ex".data, "orf".data] s.data then some "Type1_2"
  else none

/-- `is_special_type_2`: the token is exactly `"p"`. -/
def is_special_type_2 (s : String) : Option String :=
  if s = "p" then some "Type2" else none

/-- `has_dna_symbols`: `re.match('[ATCGUatcgu]$', s)`. -/
def has_dna_symbols (s : String) : Option String :=
  if clsDollar "ATCGUatcgu".data s.data then some "DNASym" else none

/-- Full amino-acid names (plus `stop`, `frameshift`) of
`reg_prot_symbols1`, searched as substrings. -/
def protNames : List (List Char) :=
  ["glutamine".data, "glutamic".data, "leucine".data, "valine".data,
   "isoleucine".data, "lysine".data, "alanine".data, "glycine".data,
   "aspartate".data, "methionine".data, "threonine".data, "histidine".data,
   "aspartic".data, "asparticacid".data, "arginine".data, "asparagine".data,
   "tryptophan".data, "proline".data, "phenylalanine".data, "cysteine".data,
   "serine".data, "glutamate".data, "tyrosine".data, "stop".data,
   "frameshift".data]

/-- Three-letter amino-acid codes (plus `fs`, `fsx`) of
`reg_prot_symbols2 = (...)$`, used with `re.match`. -/
def protCodes3 : List (List Char) :=
  ["cys".data, "ile".data, "ser".data, "gln".data, "met".data, "asn".data,
   "pro".data, "lys".data, "asp".data, "thr".data, "phe".data, "ala".data,
   "gly".data, "his".data, "leu".data, "arg".data, "trp".data, "val".data,
   "glu".data, "tyr".data, "fs".data, "fsx".data]

/-- Two-letter code suffixes of `reg_prot_symbols3 = (...)$` (the source
lists `ys` twice), used with `re.match`. -/
def protCodes2 : List (List Char) :=
  ["ys".data, "le".data, "er".data, "ln".data, "et".data, "sn".data,
   "ro".data, "ys".data, "sp".data, "hr".data, "he".data, "la".data,
   "ly".data, "is".data, "eu".data, "rg".data, "rp".data, "al".data,
   "lu".data, "yr".data]

/-- Characters of `reg_prot_symbols4 = [CISQMNPKDTFAGHLRWVEYX]$`. -/
def aaChars : List Char := "CISQMNPKDTFAGHLRWVEYX".data

/-- `has_protein_symbols`: the four-way cascade of the source.  Rule 1
searches the full names in the lowercased token; rule 2 `re.match`es the
three-letter codes (`$`-anchored) on the lowercased token; rule 3 needs the
two-letter suffix `re.match` on the lowercased token and the single-letter
`re.match` on the raw previous token; rule 4 `re.match`es the single-letter
class on the raw token. -/
def has_protein_symbols (s last_str : String) : Option String :=
  let lc_tmp := lowerData s
  if anySub protNames lc_tmp then some "ProteinSymFull"
  else if anyLitDollar protCodes3 lc_tmp then some "ProteinSymTri"
  else if anyLitDollar protCodes2 lc_tmp && clsDollar aaChars last_str.data then
    some "ProteinSymTriSub"
  else if clsDollar aaChars s.data then some "ProteinSymChar"
  else none

/-- `has_rscode`: `re.match('(rs|RS|Rs)[0-9]', s)` first, else
`re.match('(rs|RS|Rs)$', s)`. -/
def has_rscode (s : String) : Option String :=
  if ["rs".data, "RS".data, "Rs".data].any (fun a => litThenDigit a s.data) then
    some "RSCode"
  else if anyLitDollar ["rs".data, "RS".data, "Rs".data] s.data then some "RSCode"
  else none

/-- `re.sub('[...]', r, s)` for a single-character class: each character of
the class is replaced by `r`. -/
def subAll (cls : Char → Bool) (r : Char) (s : List Char) : List Char :=
  s.map (fun c => if cls c then r else c)

/-- `re.sub('[...]+', r, s)` for a character class: each maximal nonempty
run of class characters is replaced by the single character `r`.  The
boolean argument records whether the previous character was in the class. -/
def subRuns (cls : Char → Bool) (r : Char) : List Char → Bool → List Char
  | [], _ => []
  | c :: cs, inRun =>
    if cls c then
      if inRun then subRuns cls r cs true else r :: subRuns cls r cs true
    else c :: subRuns cls r cs false

/-- `word_shape_1`: unless `re.match('[-;:,.>+_]', s)`, substitute `[A-Z]`
by `A`, then `[a-z]` by `a`, then `[0-9]` by `0`. -/
def word_shape_1 (s : String) : Option String :=
  if !(matchCls specChars s.data) then
    some ⟨subAll isDigit09 '0' (subAll isLowerAZ 'a' (subAll isUpperAZ 'A' s.data))⟩
  else none

/-- `word_shape_2`: unless `re.match('[-;:,.>+_]', s)`, substitute
`[A-Za-z]` by `a`, then `[0-9]` by `0`. -/
def word_shape_2 (s : String) : Option String :=
  if !(matchCls specChars s.data) then
    some ⟨subAll isDigit09 '0' (subAll (fun c => isUpperAZ c || isLowerAZ c) 'a' s.data)⟩
  else none

/-- `word_shape_3`: unless `re.match('[-;:,.>+_]', s)`, substitute `[A-Z]+`
runs by `A`, then `[a-z]+` runs by `a`, then `[0-9]+` runs by `0`. -/
def word_shape_3 (s : String) : Option String :=
  if !(matchCls specChars s.data) then
    some ⟨subRuns isDigit09 '0'
      (subRuns isLowerAZ 'a' (subRuns isUpperAZ 'A' s.data false) false) false⟩
  else none

/-- `word_shape_4`: unless `re.match('[-;:,.>+_]', s)`, substitute
`[A-Za-z]+` runs by `a`, then `[0-9]+` runs by `0`. -/
def word_shape_4 (s : String) : Option String :=
  if !(matchCls specChars s.data) then
    some ⟨subRuns isDigit09 '0'
      (subRuns (fun c => isUpperAZ c || isLowerAZ c) 'a' s.data false) false⟩
  else none

/-- `prefix_pattern`: for `x` in `range(1, 6)`, `str[:x]` when
`len(str) >= x`, else `None`. -/
def prefix_pattern (s : String) : List (Option String) :=
  (List.range' 1 5).map (fun x => if s.data.length ≥ x then some ⟨s.data.take x⟩ else none)

/-- `suffix_pattern`: for `x` in `range(1, 6)`, `str[-x:]` when
`len(str) >= x`, else `None`. -/
def suffix_pattern (s : String) : List (Option String) :=
  (List.range' 1 5).map
    (fun x => if s.data.length ≥ x then some ⟨s.data.drop (s.data.length - x)⟩ else none)

/-- One loop iteration of `TmVarFeatureGenerator.generate`: the association
list of features written to `token.features`, in source order, for a token
with word `w` when the previously visited token's word was `last_str`
(`token.features` keys are distinct, so the Python dict is this assoc
list).  The two `enumerate` loops write the keys
`'prefix{}[0]'.format(index+1)` and `'suffix{}[0]'.format(index+1)` for
`index` in `0..4`; these five keys are spelt out below. -/
def tmvarTokenFeatures (w last_str : String) : List (String × FVal) :=
  [("num_nr[0]", num_digits_chars w),
   ("num_up[0]", num_capital_chars w),
   ("num_lo[0]", num_lower_chars w),
   ("num_alpha[0]", num_chars w),
   ("num_spec_chars[0]", ofOpt (num_spec_chars w)),
   ("num_has_chr_key[0]", ofOpt (has_chromosomal_keytokens w)),
   ("mutat_type[0]", ofOpt (mutation_type w)),
   ("mutat_word[0]", ofOpt (mutation_word w)),
   ("mutat_article_bp[0]", ofOpt (mutation_article_bp w)),
   ("type1[0]", ofOpt (is_special_type_1 w)),
   ("type2[0]", ofOpt (is_special_type_2 w)),
   ("dna_symbols[0]", ofOpt (has_dna_symbols w)),
   ("protein_symbols[0]", ofOpt (has_protein_symbols w last_str)),
   ("rs_code[0]", ofOpt (has_rscode w)),
   ("shape1[0]", ofOpt (word_shape_1 w)),
   ("shape2[0]", ofOpt (word_shape_2 w)),
   ("shape3[0]", ofOpt (word_shape_3 w)),
   ("shape4[0]", ofOpt (word_shape_4 w))]
  ++ (List.zip ["prefix1[0]", "prefix2[0]", "prefix3[0]", "prefix4[0]", "prefix5[0]"]
        (prefix_pattern w)).map (fun kv => (kv.1, ofOpt kv.2))
  ++ (List.zip ["suffix1[0]", "suffix2[0]", "suffix3[0]", "suffix4[0]", "suffix5[0]"]
        (suffix_pattern w)).map (fun kv => (kv.1, ofOpt kv.2))

/-- The 28 feature keys written by `TmVarFeatureGenerator.generate`, in
source order. -/
def tmvarKeyList : List String :=
  ["num_nr[0]", "num_up[0]", "num_lo[0]", "num_alpha[0]", "num_spec_chars[0]",
   "num_has_chr_key[0]", "mutat_type[0]", "mutat_word[0]", "mutat_article_bp[0]",
   "type1[0]", "type2[0]", "dna_symbols[0]", "protein_symbols[0]", "rs_code[0]",
   "shape1[0]", "shape2[0]", "shape3[0]", "shape4[0]",
   "prefix1[0]", "prefix2[0]", "prefix3[0]", "prefix4[0]", "prefix5[0]",
   "suffix1[0]", "suffix2[0]", "suffix3[0]", "suffix4[0]", "suffix5[0]"]

/-- Modelled from the spec: a dataset is documents, each a list of parts,
each a list of sentences, each a list of token words; `dataset.tokens()`
(defined in `nala.structures.data`, which is not part of the sources here)
iterates the tokens in document → part → sentence → token order. -/
def datasetTokens (docs : List (List (List (List String)))) : List String :=
  (docs.map (fun doc => (doc.map (fun part => part.flatten)).flatten)).flatten

/-- The token loop of `TmVarFeatureGenerator.generate`, threading
`last_token_str` (updated to the current word at the end of each
iteration). -/
def tmvarGenAux (last_str : String) : List String → List (List (String × FVal))
  | [] => []
  | w :: ws => tmvarTokenFeatures w last_str :: tmvarGenAux w ws

/-- `TmVarFeatureGenerator.generate`: `last_token_str` starts as `""` and
the tokens of the whole dataset are visited in traversal order. -/
def tmvarGenerate (docs : List (List (List (List String)))) :
    List (List (String × FVal)) :=
  tmvarGenAux "" (datasetTokens docs)

/-! ## Python `str.find` and the span alignment of
`TmVarDictionaryFeatureGenerator.generate` -/

/-- Search loop of Python `str.find`: try positions `i, i+1, ...` while
`i + len(w) ≤ len(text)`; return the first position where `w` occurs, else
`-1`.  The `fuel` argument only bounds the recursion; `text.length + 1`
iterations always suffice because `i` grows by one each step and the loop
stops once `i + w.length > text.length`. -/
def findFromAux (text w : List Char) : Nat → Nat → Int
  | 0, _ => -1
  | fuel + 1, i =>
    if i + w.length ≤ text.length then
      if (text.drop i).take w.length = w then (i : Int)
      else findFromAux text w fuel (i + 1)
    else -1

/-- Python `text.find(w, start)`: a negative `start` counts from the end of
the string (clamped at 0); the result is the least occurrence position
`≥ start`, or `-1` when there is none. -/
def pyFind (text w : List Char) (start : Int) : Int :=
  let s : Nat := if start < 0 then (text.length + start).toNat else start.toNat
  findFromAux text w (text.length + 1) s

/-- `w` occurs in `text` at position `i`. -/
def occursAt (text w : List Char) (i : Nat) : Prop :=
  i + w.length ≤ text.length ∧ (text.drop i).take w.length = w

instance (text w : List Char) (i : Nat) : Decidable (occursAt text w i) := by
  unfold occursAt; infer_instance

/-- The token-offset alignment of
`TmVarDictionaryFeatureGenerator.generate`: for each token word in order,
`so_far = part.text.find(token.word, so_far)`; the list of the successive
values of `so_far` (the found start offsets, `-1` on failure).  Note that
the cursor is set to the *start* offset of each located token, not past its
end. -/
def alignOffsets (text : List Char) : List (List Char) → Int → List Int
  | [], _ => []
  | w :: ws, so_far =>
    let found := pyFind text w so_far
    found :: alignOffsets text ws found

/-! ## A matcher for the 11 dictionary regular expressions

Every quantifier in the 11 source patterns applies to a single character
class and every alternation is over literal words, so a pattern is embedded
as a sequence of the items below.  Matching follows Python `re`: greedy
quantifiers that give back characters on backtracking, alternatives tried
in written order. -/

/-- One item of a dictionary pattern. -/
inductive RItem where
  /-- a single character of a class, `[...]` -/
  | one (cls : Char → Bool) : RItem
  /-- an ordered alternation of literal words, `(w1|w2|...)` -/
  | lits (ws : List (List Char)) : RItem
  /-- `[...]*` (greedy) -/
  | starC (cls : Char → Bool) : RItem
  /-- `[...]+` (greedy) -/
  | plusC (cls : Char → Bool) : RItem
  /-- `[...]{0,hi}` (greedy) -/
  | repC (cls : Char → Bool) (hi : Nat) : RItem

/-- Length of the maximal run of class characters at the head of `s`. -/
def munchCount (cls : Char → Bool) : List Char → Nat
  | [] => 0
  | c :: cs => if cls c then munchCount cls cs + 1 else 0

/-- First success of `f` over a list of candidates, in order. -/
def firstSome (f : Nat → Option Nat) : List Nat → Option Nat
  | [] => none
  | n :: ns => match f n with
    | some r => some r
    | none => firstSome f ns

/-- `[hi, hi-1, ..., lo]` (empty when `hi < lo`): the candidate consumption
counts of a greedy quantifier, longest first. -/
def countdown (hi lo : Nat) : List Nat :=
  (List.range (hi + 1 - lo)).map (fun i => hi - i)

/-- Match a greedy class quantifier consuming between `lo` and `hi`
characters, then the rest of the pattern via `restM`; on failure give back
one character at a time. -/
def tryGreedy (restM : List Char → Option Nat) (cls : Char → Bool) (lo hi : Nat)
    (cs : List Char) : Option Nat :=
  let m := min (munchCount cls cs) hi
  if m < lo then none
  else firstSome (fun k => (restM (cs.drop k)).map (fun n => k + n)) (countdown m lo)

/-- Match an ordered literal alternation then the rest of the pattern via
`restM`, backtracking to the next alternative on failure. -/
def tryLits (restM : List Char → Option Nat) : List (List Char) → List Char → Option Nat
  | [], _ => none
  | w :: ws, cs =>
    if w.isPrefixOf cs then
      match restM (cs.drop w.length) with
      | some n => some (w.length + n)
      | none => tryLits restM ws cs
    else tryLits restM ws cs

/-- Match a pattern (sequence of items) at the head of `cs`, returning the
number of characters consumed by the leftmost-preferred match, Python
`re`-style. -/
def matchSeq : List RItem → List Char → Option Nat
  | [], _ => some 0
  | RItem.one cls :: rest, cs =>
    match cs with
    | [] => none
    | c :: cs' =>
      if cls c then (matchSeq rest cs').map (fun n => n + 1) else none
  | RItem.lits ws :: rest, cs => tryLits (matchSeq rest) ws cs
  | RItem.starC cls :: rest, cs => tryGreedy (matchSeq rest) cls 0 cs.length cs
  | RItem.plusC cls :: rest, cs => tryGreedy (matchSeq rest) cls 1 cs.length cs
  | RItem.repC cls hi :: rest, cs => tryGreedy (matchSeq rest) cls 0 hi cs

/-- `re.finditer` scan: try a match at each position left to right; on a
match of `n > 0` characters record its span and resume right after it (an
empty match is recorded and the scan advances one position, as in Python;
the 11 dictionary patterns can never match empty).  `fuel = length of the
remaining text` suffices since every step consumes at least one
character. -/
def findIterAux (m : List Char → Option Nat) : Nat → List Char → Nat → List (Nat × Nat)
  | 0, _, _ => []
  | _ + 1, [], _ => []
  | fuel + 1, c :: cs', pos =>
    match m (c :: cs') with
    | some 0 => (pos, pos) :: findIterAux m fuel cs' (pos + 1)
    | some (n + 1) => (pos, pos + (n + 1)) :: findIterAux m fuel ((c :: cs').drop (n + 1)) (pos + (n + 1))
    | none => findIterAux m fuel cs' (pos + 1)

/-- All spans `(start, end)` of `re.finditer(pattern, text)`. -/
def pyFindIter (m : List Char → Option Nat) (text : List Char) : List (Nat × Nat) :=
  findIterAux m text.length text 0

/-! ## The 11 dictionary patterns of `TmVarDictionaryFeatureGenerator` -/

/-- Membership in an explicitly listed character class. -/
def clsOfStr (s : String) : Char → Bool := fun c => s.data.contains c

/-- `[cgrm]` -/
def clsCgrm : Char → Bool := clsOfStr "cgrm"

/-- `[ATCGatcgu]` -/
def clsNuc : Char → Bool := clsOfStr "ATCGatcgu"

/-- `[ATCGatcgu \/\>\<\?\(\)\[\]\;\:\*\_\-\+0-9]` (patterns 0 and 1) -/
def clsGenomFull : Char → Bool :=
  fun c => clsOfStr "ATCGatcgu /><?()[];:*_-+" c || isDigit09 c

/-- `[ATCGatcgu \/\>\?\(\)\[\]\;\:\*\_\-\+0-9]` (patterns 2 and 3; no `<`) -/
def clsGenomNoLt : Char → Bool :=
  fun c => clsOfStr "ATCGatcgu />?()[];:*_-+" c || isDigit09 c

/-- `[ATCGatcgu0-9\_\.\:]` (trailing class of patterns 0 and 1) -/
def clsNucTail : Char → Bool :=
  fun c => clsOfStr "ATCGatcgu_.:" c || isDigit09 c

/-- `[CISQMNPKDTFAGHLRWVEYX \/\>\<\?\(\)\[\]\;\:\*\_\-\+0-9]` (pattern 7) -/
def clsProtFull : Char → Bool :=
  fun c => clsOfStr "CISQMNPKDTFAGHLRWVEYX /><?()[];:*_-+" c || isDigit09 c

/-- `[CISQMNPKDTFAGHLRWVEYX \/\>\?\(\)\[\]\;\:\*\_\-\+0-9]` (pattern 8; no `<`) -/
def clsProtNoLt : Char → Bool :=
  fun c => clsOfStr "CISQMNPKDTFAGHLRWVEYX />?()[];:*_-+" c || isDigit09 c

/-- A regex word character `[A-Za-z0-9_]` (ASCII). -/
def isWordChar (c : Char) : Bool :=
  isUpperAZ c || isLowerAZ c || isDigit09 c || c == '_'

/-- `[\W\-]`: a non-word character or `-`. -/
def clsNonWordDash (c : Char) : Bool := !isWordChar c || c == '-'

/-- The mutation keywords `(inv|del|ins|dup|tri|qua|con|delins|indel)` of
pattern 0. -/
def kwInv : List (List Char) :=
  ["inv".data, "del".data, "ins".data, "dup".data, "tri".data, "qua".data,
   "con".data, "delins".data, "indel".data]

/-- The mutation keywords `(del|ins|dup|tri|qua|con|delins|indel)` of
patterns 1 and 6. -/
def kwNoInv : List (List Char) :=
  ["del".data, "ins".data, "dup".data, "tri".data, "qua".data, "con".data,
   "delins".data, "indel".data]

/-- The keywords `(inv|del|ins|dup|tri|qua|con|delins|indel|fsX|fsx|fsx|fs)`
of pattern 7 (the source lists `fsx` twice). -/
def kwProt : List (List Char) :=
  ["inv".data, "del".data, "ins".data, "dup".data, "tri".data, "qua".data,
   "con".data, "delins".data, "indel".data, "fsX".data, "fsx".data,
   "fsx".data, "fs".data]

/-- The 11 regular expressions of
`TmVarDictionaryFeatureGenerator.__init__`, in source order. -/
def tmvarDictPatterns : List (List RItem) :=
  [[RItem.one clsCgrm, RItem.one (· == '.'), RItem.plusC clsGenomFull,
    RItem.lits kwInv, RItem.starC clsNucTail],
   [RItem.lits ["IVS".data], RItem.plusC clsGenomFull,
    RItem.lits kwNoInv, RItem.starC clsNucTail],
   [RItem.one clsCgrm, RItem.one (· == '.'), RItem.plusC clsGenomNoLt],
   [RItem.lits ["IVS".data], RItem.plusC clsGenomNoLt],
   [RItem.one clsCgrm, RItem.one (· == '.'), RItem.one clsNuc,
    RItem.plusC isDigit09, RItem.one clsNuc],
   [RItem.one clsNuc, RItem.plusC isDigit09, RItem.one clsNuc],
   [RItem.plusC isDigit09, RItem.lits kwNoInv, RItem.starC clsNuc],
   [RItem.one (· == 'p'), RItem.one (· == '.'), RItem.plusC clsProtFull,
    RItem.lits kwProt, RItem.starC clsProtFull],
   [RItem.one (· == 'p'), RItem.one (· == '.'), RItem.plusC clsProtNoLt],
   [RItem.one (· == 'p'), RItem.one (· == '.'), RItem.one isUpperAZ,
    RItem.repC isLowerAZ 2, RItem.repC clsNonWordDash 1, RItem.plusC isDigit09,
    RItem.repC clsNonWordDash 1, RItem.one isUpperAZ, RItem.repC isLowerAZ 2],
   [RItem.one (· == 'p'), RItem.one (· == '.'), RItem.one isUpperAZ,
    RItem.repC isLowerAZ 2, RItem.repC clsNonWordDash 1, RItem.plusC isDigit09,
    RItem.repC clsNonWordDash 1, RItem.lits ["fs".data, "fsx".data, "fsX".data]]]

/-! ## `TmVarDictionaryFeatureGenerator.generate` -/

/-- The feature key `'pattern{}[0]'.format(index)`. -/
def patKey (index : Nat) : String := "pattern" ++ toString index ++ "[0]"

/-- The 11 dictionary feature keys. -/
def dictKeyList : List String :=
  ["pattern0[0]", "pattern1[0]", "pattern2[0]", "pattern3[0]", "pattern4[0]",
   "pattern5[0]", "pattern6[0]", "pattern7[0]", "pattern8[0]", "pattern9[0]",
   "pattern10[0]"]

/-- The inner tag loop of `generate` for one token and one pattern's match
list: start at `'O'`; for each match in list order, overwrite with `'B'`
when `start == so_far`, else `'I'` when `start < so_far < token_end < end`,
else `'E'` when `token_end == end`, and stop at the first such match.
(The Python `pop`/re-insert pair just replaces the single key's value.) -/
def dictTagFor : List (Nat × Nat) → Int → Int → Char
  | [], _, _ => 'O'
  | (s, e) :: ms, so_far, token_end =>
    if (s : Int) = so_far then 'B'
    else if (s : Int) < so_far ∧ so_far < token_end ∧ token_end < (e : Int) then 'I'
    else if token_end = (e : Int) then 'E'
    else dictTagFor ms so_far token_end

/-- The dictionary features written for one token located at
`[so_far, token_end)`, given the per-pattern match lists (in pattern
order). -/
def dictTokenRow (ms : List (List (Nat × Nat))) (so_far token_end : Int) :
    List (String × Char) :=
  ms.enum.map (fun im => (patKey im.1, dictTagFor im.2 so_far token_end))

/-- The token loop of `generate` over one part: locate each token word with
`so_far = part.text.find(token.word, so_far)`, set
`token_end = so_far + len(token.word)`, emit the 11 dictionary features,
and thread `so_far` (the found start offset) to the next token. -/
def dictAlignTokens (text : List Char) (ms : List (List (Nat × Nat))) :
    List (List Char) → Int → List (List (String × Char))
  | [], _ => []
  | w :: ws, so_far =>
    let found := pyFind text w so_far
    let token_end := found + w.length
    dictTokenRow ms found token_end :: dictAlignTokens text ms ws found

/-- `TmVarDictionaryFeatureGenerator.generate` on one part: compute the 11
match lists on `part.text`, then tag every token of every sentence (the
cursor `so_far` starts at 0 for the part and is threaded across its
sentences). -/
def dictGenPart (text : String) (sentences : List (List String)) :
    List (List (String × Char)) :=
  let tl := text.data
  let ms := tmvarDictPatterns.map (fun pat => pyFindIter (matchSeq pat) tl)
  dictAlignTokens tl ms ((sentences.flatten).map String.data) 0

/-- Specification reading of the tag rule (C3): the *first qualifying match
in list order* decides the tag, where a match qualifies when its start
equals the token start, or it strictly contains the token, or its end
equals the token end; that match yields `B`, else `I`, else `E` in this
priority, and `O` when no match qualifies. -/
def dictTagSpec (ms : List (Nat × Nat)) (so_far token_end : Int) : Char :=
  match ms.find? (fun m =>
      decide ((m.1 : Int) = so_far)
      || decide ((m.1 : Int) < so_far ∧ so_far < token_end ∧ token_end < (m.2 : Int))
      || decide (token_end = (m.2 : Int))) with
  | none => 'O'
  | some m =>
    if (m.1 : Int) = so_far then 'B'
    else if (m.1 : Int) < so_far ∧ so_far < token_end ∧ token_end < (m.2 : Int) then 'I'
    else 'E'

/-! ## Helper lemmas -/

theorem litDollar_iff (as : List Char) : ∀ ss : List Char,
    litDollar as ss = true ↔ (ss = as ∨ ss = as ++ ['\n']) := by
  induction as with
  | nil =>
    intro ss
    cases ss with
    | nil => simp [litDollar]
    | cons c cs => simp [litDollar]
  | cons a as ih =>
    intro ss
    cases ss with
    | nil => simp [litDollar]
    | cons c cs =>
      simp only [litDollar, Bool.and_eq_true, beq_iff_eq, ih, List.cons_append,
        List.cons.injEq]
      constructor
      · rintro ⟨rfl, h | h⟩
        · exact Or.inl ⟨rfl, h⟩
        · exact Or.inr ⟨rfl, h⟩
      · rintro (⟨rfl, h⟩ | ⟨rfl, h⟩)
        · exact ⟨rfl, Or.inl h⟩
        · exact ⟨rfl, Or.inr h⟩

theorem anyLitDollar_iff (alts : List (List Char)) (ss : List Char) :
    anyLitDollar alts ss = true ↔ ∃ a ∈ alts, ss = a ∨ ss = a ++ ['\n'] := by
  simp [anyLitDollar, List.any_eq_true, litDollar_iff]

theorem clsDollar_iff (cls : List Char) : ∀ ss : List Char,
    clsDollar cls ss = true ↔ ∃ c ∈ cls, ss = [c] ∨ ss = [c, '\n'] := by
  intro ss
  cases ss with
  | nil => simp [clsDollar]
  | cons c cs =>
    simp only [clsDollar, Bool.and_eq_true, Bool.or_eq_true, beq_iff_eq,
      List.contains, List.elem_iff]
    constructor
    · rintro ⟨hc, h | h⟩
      · exact ⟨c, by simpa using hc, Or.inl (by simp [h])⟩
      · exact ⟨c, by simpa using hc, Or.inr (by simp [h])⟩
    · rintro ⟨x, hx, h | h⟩
      · obtain ⟨rfl, rfl⟩ : c = x ∧ cs = [] := by simpa using h
        exact ⟨by simpa using hx, Or.inl rfl⟩
      · obtain ⟨rfl, rfl⟩ : c = x ∧ cs = ['\n'] := by simpa using h
        exact ⟨by simpa using hx, Or.inr rfl⟩

theorem findFromAux_ge (text w : List Char) : ∀ (fuel i : Nat),
    0 ≤ findFromAux text w fuel i → (i : Int) ≤ findFromAux text w fuel i := by
  intro fuel
  induction fuel with
  | zero => intro i h; simp [findFromAux] at h
  | succ fuel ih =>
    intro i h
    rw [findFromAux] at h ⊢
    by_cases h1 : i + w.length ≤ text.length
    · rw [if_pos h1] at h ⊢
      by_cases h2 : (text.drop i).take w.length = w
      · rw [if_pos h2]
      · rw [if_neg h2] at h ⊢
        calc (i : Int) ≤ (i : Int) + 1 := by omega
        _ = ((i + 1 : Nat) : Int) := by push_cast; ring
        _ ≤ _ := ih (i + 1) h
    · rw [if_neg h1] at h; omega

theorem pyFind_ge (text w : List Char) (start : Int) (h0 : 0 ≤ start)
    (h : 0 ≤ pyFind text w start) : start ≤ pyFind text w start := by
  unfold pyFind at h ⊢
  rw [if_neg (by omega : ¬ start < 0)] at h ⊢
  calc start = ((start.toNat : Nat) : Int) := by omega
  _ ≤ _ := findFromAux_ge text w (text.length + 1) start.toNat h

theorem findFromAux_not_found (text w : List Char)
    (h : ∀ j, j ≤ text.length → ¬ occursAt text w j) :
    ∀ (fuel i : Nat), findFromAux text w fuel i = -1 := by
  intro fuel
  induction fuel with
  | zero => intro i; rfl
  | succ fuel ih =>
    intro i
    rw [findFromAux]
    by_cases h1 : i + w.length ≤ text.length
    · rw [if_pos h1]
      have h2 : ¬ (text.drop i).take w.length = w := by
        intro heq
        exact h i (by omega) ⟨h1, heq⟩
      rw [if_neg h2]
      exact ih (i + 1)
    · rw [if_neg h1]

theorem pyFind_not_found (text w : List Char) (start : Int)
    (h : ∀ j, j ≤ text.length → ¬ occursAt text w j) :
    pyFind text w start = -1 := by
  unfold pyFind
  exact findFromAux_not_found text w h _ _

/-- The successive `so_far` values are non-decreasing whenever every `find`
along a part succeeds, starting from a non-negative cursor. -/
theorem alignOffsets_chain (text : List Char) : ∀ (ws : List (List Char)) (cur : Int),
    0 ≤ cur → (∀ r ∈ alignOffsets text ws cur, 0 ≤ r) →
    List.Chain' (· ≤ ·) (cur :: alignOffsets text ws cur) := by
  intro ws
  induction ws with
  | nil => intro cur _ _; simp [alignOffsets]
  | cons w ws ih =>
    intro cur hcur h
    rw [alignOffsets] at h ⊢
    have hfound : 0 ≤ pyFind text w cur := h _ (List.mem_cons_self _ _)
    have hrest : ∀ r ∈ alignOffsets text ws (pyFind text w cur), 0 ≤ r :=
      fun r hr => h r (List.mem_cons_of_mem _ hr)
    exact List.Chain'.cons (pyFind_ge text w cur hcur hfound)
      (ih (pyFind text w cur) hfound hrest)

/-- Every row produced by the token loop is a `dictTokenRow` for the fixed
per-pattern match lists. -/
theorem mem_dictAlignTokens {text : List Char} {ms : List (List (Nat × Nat))} :
    ∀ {ws : List (List Char)} {cur : Int} {row : List (String × Char)},
    row ∈ dictAlignTokens text ms ws cur →
    ∃ so_far token_end, row = dictTokenRow ms so_far token_end := by
  intro ws
  induction ws with
  | nil => intro cur row h; simp [dictAlignTokens] at h
  | cons w vs ih =>
    intro cur row h
    rw [dictAlignTokens] at h
    rcases List.mem_cons.mp h with h' | h'
    · exact ⟨_, _, h'⟩
    · exact ih h'

theorem dictTokenRow_keys (ms : List (List (Nat × Nat))) (so_far token_end : Int) :
    (dictTokenRow ms so_far token_end).map Prod.fst =
      (List.range ms.length).map patKey := by
  rw [dictTokenRow, List.map_map, ← List.enum_map_fst ms, List.map_map]
  rfl

/-- Unfolding the threaded `last_token_str` recursion: each token is paired
with the word one position back (the seed for the head). -/
theorem tmvarGenAux_eq : ∀ (ws : List String) (last_str : String),
    tmvarGenAux last_str ws =
      (ws.zip (last_str :: ws)).map (fun p => tmvarTokenFeatures p.1 p.2) := by
  intro ws
  induction ws with
  | nil => intro last_str; rfl
  | cons w ws ih => intro last_str; simp [tmvarGenAux, List.zip_cons_cons, ih]

/-- The features written for a token form a fixed key list, whatever the
token's content. -/
theorem tmvarTokenFeatures_keys (w last_str : String) :
    (tmvarTokenFeatures w last_str).map Prod.fst = tmvarKeyList := by
  rfl

theorem mem_tmvarGenAux : ∀ {ws : List String} {last_str : String}
    {row : List (String × FVal)}, row ∈ tmvarGenAux last_str ws →
    ∃ w l, row = tmvarTokenFeatures w l := by
  intro ws
  induction ws with
  | nil => intro last_str row h; simp [tmvarGenAux] at h
  | cons w ws ih =>
    intro last_str row h
    rw [tmvarGenAux] at h
    rcases List.mem_cons.mp h with h' | h'
    · exact ⟨_, _, h'⟩
    · exact ih h'

/-! ## Claims -/

/-- C1, counterexample: for part text `"AB AB"` tokenized as two tokens both
`"AB"`, both `find` calls return offset 0 — the second token's offset is not
`≥ 2`, so the first occurrence is matched twice, contrary to the claim. -/
theorem c1_counterexample :
    alignOffsets "AB AB".data ["AB".data, "AB".data] 0 = [0, 0] ∧
      ¬ ((0 : Int) ≥ 2) := by
  decide

/-- C1, amended: the search for each token starts at the *start* offset
found for the previous token (`so_far` is set to `find`'s result and never
advanced past the located token), so the cursor never moves backward: when
every `find` of a part succeeds, the successive token offsets are
non-decreasing — but the same occurrence can be matched twice. -/
theorem c1_forward_cursor (text : List Char) (ws : List (List Char))
    (h : ∀ r ∈ alignOffsets text ws 0, 0 ≤ r) :
    List.Chain' (· ≤ ·) (alignOffsets text ws 0) :=
  (alignOffsets_chain text ws 0 (le_refl 0) h).tail

/-- C1, witness for the amended theorem. -/
theorem c1_forward_cursor_witness :
    List.Chain' (· ≤ ·) (alignOffsets "AB CD".data ["AB".data, "CD".data] 0) :=
  c1_forward_cursor "AB CD".data ["AB".data, "CD".data] (by decide)

/-- C2: the dictionary generator evaluates exactly 11 patterns, and every
token row it writes consists of exactly the 11 keys
`pattern0[0]`…`pattern10[0]`. -/
theorem c2_eleven_patterns (text : String) (sentences : List (List String))
    (row : List (String × Char)) (h : row ∈ dictGenPart text sentences) :
    tmvarDictPatterns.length = 11 ∧ row.map Prod.fst = dictKeyList ∧
      dictKeyList.length = 11 := by
  refine ⟨rfl, ?_, rfl⟩
  unfold dictGenPart at h
  obtain ⟨so_far, token_end, rfl⟩ := mem_dictAlignTokens h
  rw [dictTokenRow_keys]
  have hlen :
      (tmvarDictPatterns.map (fun pat => pyFindIter (matchSeq pat) text.data)).length
        = 11 := by
    rw [List.length_map]; rfl
  rw [hlen]
  rfl

/-- C2, witness. -/
theorem c2_eleven_patterns_witness :
    tmvarDictPatterns.length = 11 ∧
      (dictTokenRow
        (tmvarDictPatterns.map (fun pat => pyFindIter (matchSeq pat) "AB".data))
        0 2).map Prod.fst = dictKeyList ∧
      dictKeyList.length = 11 :=
  c2_eleven_patterns "AB" [["AB"]] _ (by decide)

/-- C3: for every token span and every match list, the tag computed by the
code's per-match loop equals the first-qualifying-match specification: the
first match in list order whose start equals the token start, or which
strictly contains the token, or whose end equals the token end decides the
tag, with priority `B`, else `I`, else `E`, and `O` when no match
qualifies. -/
theorem c3_tag_priority : ∀ (ms : List (Nat × Nat)) (so_far token_end : Int),
    dictTagFor ms so_far token_end = dictTagSpec ms so_far token_end := by
  intro ms
  induction ms with
  | nil => intro so_far token_end; rfl
  | cons m ms ih =>
    intro so_far token_end
    obtain ⟨s, e⟩ := m
    by_cases h1 : (s : Int) = so_far
    · simp [dictTagFor, dictTagSpec, List.find?, h1]
    · by_cases h2 : (s : Int) < so_far ∧ so_far < token_end ∧ token_end < (e : Int)
      · simp [dictTagFor, dictTagSpec, List.find?, h1, h2]
      · by_cases h3 : token_end = (e : Int)
        · simp [dictTagFor, dictTagSpec, List.find?, h1, h2, h3]
        · simp only [dictTagFor, if_neg h1, if_neg h2, if_neg h3, ih]
          simp [dictTagSpec, List.find?, h1, h2, h3]

/-- C4, counterexample: for part text `"xyz"` with single token `"AB"`, the
token's word does not occur in the text, `find` returns `-1`, and no
failure is surfaced: the token is silently tagged with all 11 dictionary
features (`'O'` everywhere). -/
theorem c4_counterexample :
    pyFind "xyz".data "AB".data 0 = -1 ∧
    dictGenPart "xyz" [["AB"]] =
      [[("pattern0[0]", 'O'), ("pattern1[0]", 'O'), ("pattern2[0]", 'O'),
        ("pattern3[0]", 'O'), ("pattern4[0]", 'O'), ("pattern5[0]", 'O'),
        ("pattern6[0]", 'O'), ("pattern7[0]", 'O'), ("pattern8[0]", 'O'),
        ("pattern9[0]", 'O'), ("pattern10[0]", 'O')]] := by
  decide

/-- C4, amended: when a token's word occurs nowhere in the part text,
`part.text.find` returns `-1` and the part's alignment is *not* aborted:
the token is silently tagged, with `so_far = -1` and
`token_end = -1 + len(word)`. -/
theorem c4_find_failure_silent (text w : String)
    (h : ∀ j, j ≤ text.data.length → ¬ occursAt text.data w.data j) :
    pyFind text.data w.data 0 = -1 ∧
    dictGenPart text [[w]] =
      [dictTokenRow
        (tmvarDictPatterns.map (fun pat => pyFindIter (matchSeq pat) text.data))
        (-1) (-1 + (w.data.length : Int))] := by
  have hf : pyFind text.data w.data 0 = -1 := pyFind_not_found _ _ _ h
  refine ⟨hf, ?_⟩
  show dictAlignTokens text.data _ [w.data] 0 = _
  rw [dictAlignTokens, dictAlignTokens, hf]

/-- C4, witness for the amended theorem. -/
theorem c4_find_failure_silent_witness :
    pyFind "xyz".data "AB".data 0 = -1 ∧
    dictGenPart "xyz" [["AB"]] =
      [dictTokenRow
        (tmvarDictPatterns.map (fun pat => pyFindIter (matchSeq pat) "xyz".data))
        (-1) (-1 + ("AB".data.length : Int))] :=
  c4_find_failure_silent "xyz" "AB" (by decide)

/-- C5, counterexample: on part text `"c.123A>T mutation"`, dictionary
pattern index 4 has no match at all, so every token — including the
interior ones — receives `'O'` for `pattern4[0]`, not the claimed
`B`/`I`/`E` tags. -/
theorem c5_counterexample :
    (dictGenPart "c.123A>T mutation"
        [["c", ".", "123", "A", ">", "T", "mutation"]]).map
      (fun row => List.lookup "pattern4[0]" row) =
      [some 'O', some 'O', some 'O', some 'O', some 'O', some 'O', some 'O'] ∧
    ('O' : Char) ≠ 'B' ∧ ('O' : Char) ≠ 'I' ∧ ('O' : Char) ≠ 'E' := by
  decide

/-- C5, amended: pattern 4 (`[cgrm]\.[ATCGatcgu][0-9]+[ATCGatcgu]`) does not
match `"c.123A>T mutation"` (a digit follows `c.`); the described tagging
happens under pattern index 2 instead, whose single match spans offsets
0–9 (`"c.123A>T "`, including the trailing space): the start token `"c"`
gets `B`, the interior tokens get `I`, the trailing `"mutation"` gets `O` —
and no token gets `E`, because the match ends after the space, which
belongs to no token. -/
theorem c5_pattern2_tags :
    pyFindIter (matchSeq (tmvarDictPatterns.getD 4 [])) "c.123A>T mutation".data
      = [] ∧
    pyFindIter (matchSeq (tmvarDictPatterns.getD 2 [])) "c.123A>T mutation".data
      = [(0, 9)] ∧
    (dictGenPart "c.123A>T mutation"
        [["c", ".", "123", "A", ">", "T", "mutation"]]).map
      (fun row => List.lookup "pattern2[0]" row) =
      [some 'B', some 'I', some 'I', some 'I', some 'I', some 'I', some 'O'] := by
  decide

/-- C6, counterexample: the token `"abc"` ends in `c` but its `type1[0]`
feature is `None`, not `"Type1"`: `re.match` anchors at the start of the
token. -/
theorem c6_counterexample :
    is_special_type_1 "abc" = none ∧ "abc".data.getLast? = some 'c' := by
  decide

/-- C6, amended: the `type1[0]` feature is `"Type1"` exactly when the whole
token is `c`, `g`, `r` or `m` (up to one trailing newline admitted by `$`),
else `"Type1_2"` exactly when the whole token is `ivs`, `ex` or `orf`
(same), else `None`. -/
theorem c6_exact_match (s : String) :
    is_special_type_1 s =
      (if ∃ a ∈ (["c".data, "g".data, "r".data, "m".data] : List (List Char)),
          s.data = a ∨ s.data = a ++ ['\n'] then some "Type1"
       else if ∃ a ∈ (["ivs".data, "ex".data, "orf".data] : List (List Char)),
          s.data = a ∨ s.data = a ++ ['\n'] then some "Type1_2"
       else none) := by
  have h1 := anyLitDollar_iff ["c".data, "g".data, "r".data, "m".data] s.data
  have h2 := anyLitDollar_iff ["ivs".data, "ex".data, "orf".data] s.data
  rw [is_special_type_1]
  by_cases hc1 : anyLitDollar ["c".data, "g".data, "r".data, "m".data] s.data = true
  · rw [if_pos hc1, if_pos (h1.mp hc1)]
  · rw [if_neg hc1, if_neg (fun hp => hc1 (h1.mpr hp))]
    by_cases hc2 : anyLitDollar ["ivs".data, "ex".data, "orf".data] s.data = true
    · rw [if_pos hc2, if_pos (h2.mp hc2)]
    · rw [if_neg hc2, if_neg (fun hp => hc2 (h2.mpr hp))]

/-- C7, counterexample: the token `"xcys"` ends in the three-letter code
`cys` but its protein-symbol feature is `None`, not `"ProteinSymTri"`:
`re.match` anchors at the start of the token. -/
theorem c7_counterexample :
    has_protein_symbols "xcys" "" = none ∧
      List.isSuffixOf "cys".data "xcys".data = true := by
  decide

/-- C7, amended: the cascade priority is as claimed and a full amino-acid
name is searched anywhere in the lowercased token (so `"glutamine"` gives
`"ProteinSymFull"`), but rules 2–4 fire only when the *whole* (lowercased)
token is the three-letter code — resp. the whole token is the two-letter
suffix and the whole previous token is the one-letter code, resp. the whole
token is the one-letter code — up to one trailing newline admitted by
`$`. -/
theorem c7_cascade (s last_str : String) :
    has_protein_symbols s last_str =
      (if anySub protNames (lowerData s) then some "ProteinSymFull"
       else if ∃ a ∈ protCodes3, lowerData s = a ∨ lowerData s = a ++ ['\n'] then
         some "ProteinSymTri"
       else if (∃ a ∈ protCodes2, lowerData s = a ∨ lowerData s = a ++ ['\n']) ∧
           (∃ c ∈ aaChars, last_str.data = [c] ∨ last_str.data = [c, '\n']) then
         some "ProteinSymTriSub"
       else if ∃ c ∈ aaChars, s.data = [c] ∨ s.data = [c, '\n'] then
         some "ProteinSymChar"
       else none) ∧
    has_protein_symbols "glutamine" last_str = some "ProteinSymFull" := by
  constructor
  · have h2 := anyLitDollar_iff protCodes3 (lowerData s)
    have h3 := anyLitDollar_iff protCodes2 (lowerData s)
    have h4 := clsDollar_iff aaChars last_str.data
    have h5 := clsDollar_iff aaChars s.data
    rw [has_protein_symbols]
    simp only [Bool.and_eq_true, ← h2, ← h3, ← h4, ← h5]
  · rfl

/-- C8: each token of the dataset traversal is featurized with `last_str`
equal to the word one position back in the flattened
document → part → sentence → token order (the empty seed only for the very
first token), carried across all sentence and part boundaries. -/
theorem c8_previous_token (docs : List (List (List (List String)))) :
    tmvarGenerate docs =
      ((datasetTokens docs).zip ("" :: datasetTokens docs)).map
        (fun p => tmvarTokenFeatures p.1 p.2) :=
  tmvarGenAux_eq (datasetTokens docs) ""

/-- C9: the per-token feature functions are total Lean functions over
arbitrary strings (empty, unicode, punctuation) — there is no error case in
the embedding — and for every token with fewer than `n` characters
(`n = 1..5`) the `prefix_n[0]` and `suffix_n[0]` features are the null
value. -/
theorem c9_short_prefix_suffix (w last_str : String) (n : Nat)
    (h1 : 1 ≤ n) (h2 : n ≤ 5) (h3 : w.data.length < n) :
    List.lookup ("prefix" ++ toString n ++ "[0]") (tmvarTokenFeatures w last_str)
      = some FVal.non ∧
    List.lookup ("suffix" ++ toString n ++ "[0]") (tmvarTokenFeatures w last_str)
      = some FVal.non := by
  interval_cases n
  · refine ⟨?_, ?_⟩
    · rw [show ("prefix" ++ toString (1 : Nat) ++ "[0]" : String) = "prefix1[0]" from rfl,
        show List.lookup "prefix1[0]" (tmvarTokenFeatures w last_str)
          = some (ofOpt (if w.data.length ≥ 1 then some ⟨w.data.take 1⟩ else none)) from rfl,
        if_neg (by omega)]
      rfl
    · rw [show ("suffix" ++ toString (1 : Nat) ++ "[0]" : String) = "suffix1[0]" from rfl,
        show List.lookup "suffix1[0]" (tmvarTokenFeatures w last_str)
          = some (ofOpt (if w.data.length ≥ 1 then
              some ⟨w.data.drop (w.data.length - 1)⟩ else none)) from rfl,
        if_neg (by omega)]
      rfl
  · refine ⟨?_, ?_⟩
    · rw [show ("prefix" ++ toString (2 : Nat) ++ "[0]" : String) = "prefix2[0]" from rfl,
        show List.lookup "prefix2[0]" (tmvarTokenFeatures w last_str)
          = some (ofOpt (if w.data.length ≥ 2 then some ⟨w.data.take 2⟩ else none)) from rfl,
        if_neg (by omega)]
      rfl
    · rw [show ("suffix" ++ toString (2 : Nat) ++ "[0]" : String) = "suffix2[0]" from rfl,
        show List.lookup "suffix2[0]" (tmvarTokenFeatures w last_str)
          = some (ofOpt (if w.data.length ≥ 2 then
              some ⟨w.data.drop (w.data.length - 2)⟩ else none)) from rfl,
        if_neg (by omega)]
      rfl
  · refine ⟨?_, ?_⟩
    · rw [show ("prefix" ++ toString (3 : Nat) ++ "[0]" : String) = "prefix3[0]" from rfl,
        show List.lookup "prefix3[0]" (tmvarTokenFeatures w last_str)
          = some (ofOpt (if w.data.length ≥ 3 then some ⟨w.data.take 3⟩ else none)) from rfl,
        if_neg (by omega)]
      rfl
    · rw [show ("suffix" ++ toString (3 : Nat) ++ "[0]" : String) = "suffix3[0]" from rfl,
        show List.lookup "suffix3[0]" (tmvarTokenFeatures w last_str)
          = some (ofOpt (if w.data.length ≥ 3 then
              some ⟨w.data.drop (w.data.length - 3)⟩ else none)) from rfl,
        if_neg (by omega)]
      rfl
  · refine ⟨?_, ?_⟩
    · rw [show ("prefix" ++ toString (4 : Nat) ++ "[0]" : String) = "prefix4[0]" from rfl,
        show List.lookup "prefix4[0]" (tmvarTokenFeatures w last_str)
          = some (ofOpt (if w.data.length ≥ 4 then some ⟨w.data.take 4⟩ else none)) from rfl,
        if_neg (by omega)]
      rfl
    · rw [show ("suffix" ++ toString (4 : Nat) ++ "[0]" : String) = "suffix4[0]" from rfl,
        show List.lookup "suffix4[0]" (tmvarTokenFeatures w last_str)
          = some (ofOpt (if w.data.length ≥ 4 then
              some ⟨w.data.drop (w.data.length - 4)⟩ else none)) from rfl,
        if_neg (by omega)]
      rfl
  · refine ⟨?_, ?_⟩
    · rw [show ("prefix" ++ toString (5 : Nat) ++ "[0]" : String) = "prefix5[0]" from rfl,
        show List.lookup "prefix5[0]" (tmvarTokenFeatures w last_str)
          = some (ofOpt (if w.data.length ≥ 5 then some ⟨w.data.take 5⟩ else none)) from rfl,
        if_neg (by omega)]
      rfl
    · rw [show ("suffix" ++ toString (5 : Nat) ++ "[0]" : String) = "suffix5[0]" from rfl,
        show List.lookup "suffix5[0]" (tmvarTokenFeatures w last_str)
          = some (ofOpt (if w.data.length ≥ 5 then
              some ⟨w.data.drop (w.data.length - 5)⟩ else none)) from rfl,
        if_neg (by omega)]
      rfl

/-- C9, witness. -/
theorem c9_short_prefix_suffix_witness :
    List.lookup ("prefix" ++ toString (3 : Nat) ++ "[0]") (tmvarTokenFeatures "ab" "")
      = some FVal.non ∧
    List.lookup ("suffix" ++ toString (3 : Nat) ++ "[0]") (tmvarTokenFeatures "ab" "")
      = some FVal.non :=
  c9_short_prefix_suffix "ab" "" 3 (by decide) (by decide) (by decide)

/-- C10: every row written by `TmVarFeatureGenerator.generate` carries
exactly the same fixed 28 feature keys, independent of token content. -/
theorem c10_fixed_keys (docs : List (List (List (List String))))
    (row : List (String × FVal)) (h : row ∈ tmvarGenerate docs) :
    row.map Prod.fst = tmvarKeyList ∧ tmvarKeyList.length = 28 := by
  obtain ⟨w, l, rfl⟩ := mem_tmvarGenAux h
  exact ⟨tmvarTokenFeatures_keys w l, rfl⟩

/-- C10, witness. -/
theorem c10_fixed_keys_witness :
    (tmvarTokenFeatures "abc" "").map Prod.fst = tmvarKeyList ∧
      tmvarKeyList.length = 28 :=
  c10_fixed_keys [[[["abc"]]]] (tmvarTokenFeatures "abc" "") (List.Mem.head _)

end TmVar
